import Mathlib

/-!
Verification of the GstMixer facade (gst-libs/gst/mixer/mixer.c).

The source is a thin polymorphic-dispatch layer: seven wrapper functions
that forward to a device class's optional implementation slot when it is
non-NULL and apply a documented fallback otherwise, plus four notification
helpers that each emit the event twice (device-scoped, then entity-scoped)
through the GObject signal mechanism.

Embedding conventions:
  * `gint` is embedded as `Int`; no arithmetic in this file can overflow a
    32-bit machine integer, so no reduction modulo 2^32 is needed.
  * A C `GList *` return is embedded as `List`: in GLib a NULL `GList *`
    is by definition the empty list (iteration over it visits nothing),
    so NULL corresponds to `[]`.
  * A nullable `const gchar *` return is embedded as `Option String`,
    with NULL corresponding to `none`.
  * The concrete device's mutable state is an abstract type `σ`; an
    implementation slot is a function on `σ` that may also emit signal
    deliveries (recorded as a `List Delivery`).
-/

namespace GstMixerSpec

/-- A mixer track (`GstMixerTrack`): identity plus its `num_channels`
field, a C `gint`, which is all the facade code reads from a track. -/
structure GstMixerTrack where
  id : Nat
  num_channels : Int
deriving DecidableEq, Repr

/-- An options group (`GstMixerOptions`): opaque identity is all the
facade code uses. -/
structure GstMixerOptions where
  id : Nat
deriving DecidableEq, Repr

/-- A mixer instance (`GstMixer`): opaque identity, used for
device-scoped signal emission. -/
structure GstMixer where
  id : Nat
deriving DecidableEq, Repr

/-- The four signal kinds registered in gst_mixer_class_init
(SIGNAL_MUTE_TOGGLED, SIGNAL_RECORD_TOGGLED, SIGNAL_VOLUME_CHANGED,
SIGNAL_OPTION_CHANGED). -/
inductive SigKind where
  | muteToggled
  | recordToggled
  | volumeChanged
  | optionChanged
deriving DecidableEq, Repr

/-- The payload carried by a signal emission: a boolean for the toggles,
a volume array for volume-changed, a nullable string for option-changed. -/
inductive Payload where
  | bool (b : Bool)
  | volumes (v : List Int)
  | str (s : Option String)
deriving DecidableEq, Repr

/-- The scope of a signal emission: the owning device (`g_signal_emit` on
the mixer object) or a specific entity (`g_signal_emit_by_name` on the
track or options object). -/
inductive Scope where
  | mixerScope (m : Nat)
  | trackScope (t : Nat)
  | optionsScope (o : Nat)
deriving DecidableEq, Repr

/-- Modelled from the spec: the observer registration mechanism of the
external GObject signal framework (spec section 6) is not part of
mixer.c; a subscription pairs a signal kind and a scope with a handler.
The handler result `false` models a handler that raises or fails during
delivery (spec sections 4.2 and 7). -/
structure Subscription where
  subId : Nat
  kind : SigKind
  scope : Scope
  handler : Payload → Bool

/-- Modelled from the spec: the set of live subscriptions, in
registration order (spec section 6: deliver to all live subscriptions
matching kind and scope, in registration order). -/
structure Bus where
  subs : List Subscription

/-- One delivery of an event to one observer: which subscription received
which payload, and whether its handler succeeded. -/
structure Delivery where
  subId : Nat
  kind : SigKind
  scope : Scope
  payload : Payload
  ok : Bool
deriving DecidableEq, Repr

/-- Modelled from the spec: synchronous signal delivery
(`g_signal_emit` / `g_signal_emit_by_name`), which lives in the external
GObject framework, not in mixer.c. Per spec section 6 it delivers the
payload to every live subscription matching kind and scope, in
registration order; per sections 4.2 and 7 a handler failure (handler
returning `false` here) is recorded but does not prevent the remaining
deliveries, and nothing is propagated back to the emitter. -/
def deliver (bus : Bus) (kind : SigKind) (scope : Scope) (p : Payload) :
    List Delivery :=
  (bus.subs.filter (fun s => s.kind = kind ∧ s.scope = scope)).map
    (fun s => ⟨s.subId, kind, scope, p, s.handler p⟩)

/-- The class structure (`GstMixerClass`): seven optional virtual
function slots, NULL embedded as `none`. A setter implementation maps the
device state to a new state together with the signal deliveries it
performed; the getters are read-only as in the C signatures. -/
structure GstMixerClass (σ : Type) where
  list_tracks : Option (σ → List GstMixerTrack)
  set_volume : Option (σ → GstMixerTrack → List Int → σ × List Delivery)
  get_volume : Option (σ → GstMixerTrack → List Int → List Int)
  set_mute : Option (σ → GstMixerTrack → Bool → σ × List Delivery)
  set_record : Option (σ → GstMixerTrack → Bool → σ × List Delivery)
  «set_option» : Option (σ → GstMixerOptions → Option String → σ × List Delivery)
  get_option : Option (σ → GstMixerOptions → Option String)

/-- The default virtual function table installed by gst_mixer_class_init
(mixer.c lines 110-116): every slot NULL. -/
def classInitDefaults (σ : Type) : GstMixerClass σ :=
  ⟨none, none, none, none, none, none, none⟩

/-- gst_mixer_list_tracks (mixer.c lines 131-141): dispatch to
`klass->list_tracks` when set, else `return NULL` — and a NULL
`GList *` is the empty list. -/
def gst_mixer_list_tracks {σ : Type} (klass : GstMixerClass σ) (st : σ) :
    List GstMixerTrack :=
  match klass.list_tracks with
  | some f => f st
  | none => []

/-- gst_mixer_set_volume (mixer.c lines 158-166): dispatch to
`klass->set_volume` when set, else do nothing (state unchanged, no
deliveries). -/
def gst_mixer_set_volume {σ : Type} (klass : GstMixerClass σ) (st : σ)
    (track : GstMixerTrack) (volumes : List Int) : σ × List Delivery :=
  match klass.set_volume with
  | some f => f st track volumes
  | none => (st, [])

/-- The fallback loop of gst_mixer_get_volume (mixer.c lines 187-191):
`for (i = 0; i < track->num_channels; i++) volumes[i] = 0;` with `i` and
`num_channels` of C type `gint`. Entered with `i = 0`. -/
def zeroFill (n i : Int) (buf : List Int) : List Int :=
  if i < n then zeroFill n (i + 1) (buf.set i.toNat 0) else buf
termination_by (n - i).toNat
decreasing_by omega

/-- gst_mixer_get_volume (mixer.c lines 179-193): dispatch to
`klass->get_volume` when set, else zero-fill the first
`track->num_channels` entries of the caller's buffer. -/
def gst_mixer_get_volume {σ : Type} (klass : GstMixerClass σ) (st : σ)
    (track : GstMixerTrack) (volumes : List Int) : List Int :=
  match klass.get_volume with
  | some f => f st track volumes
  | none => zeroFill track.num_channels 0 volumes

/-- gst_mixer_set_mute (mixer.c lines 206-214): dispatch to
`klass->set_mute` when set, else do nothing. -/
def gst_mixer_set_mute {σ : Type} (klass : GstMixerClass σ) (st : σ)
    (track : GstMixerTrack) (mute : Bool) : σ × List Delivery :=
  match klass.set_mute with
  | some f => f st track mute
  | none => (st, [])

/-- gst_mixer_set_record (mixer.c lines 229-237): dispatch to
`klass->set_record` when set, else do nothing. -/
def gst_mixer_set_record {σ : Type} (klass : GstMixerClass σ) (st : σ)
    (track : GstMixerTrack) (record : Bool) : σ × List Delivery :=
  match klass.set_record with
  | some f => f st track record
  | none => (st, [])

/-- gst_mixer_set_option (mixer.c lines 248-256): dispatch to
`klass->set_option` when set, else do nothing. -/
def gst_mixer_set_option {σ : Type} (klass : GstMixerClass σ) (st : σ)
    (opts : GstMixerOptions) (value : Option String) : σ × List Delivery :=
  match klass.«set_option» with
  | some f => f st opts value
  | none => (st, [])

/-- gst_mixer_get_option (mixer.c lines 268-278): dispatch to
`klass->get_option` when set, else `return NULL` (the no-value
sentinel, embedded as `none`). -/
def gst_mixer_get_option {σ : Type} (klass : GstMixerClass σ) (st : σ)
    (opts : GstMixerOptions) : Option String :=
  match klass.get_option with
  | some f => f st opts
  | none => none

/-- gst_mixer_mute_toggled (mixer.c lines 280-287): emit mute-toggled on
the mixer object (device scope), then emit it by name on the track object
(entity scope). The returned list is the chronological delivery log. -/
def gst_mixer_mute_toggled (bus : Bus) (mixer : GstMixer)
    (track : GstMixerTrack) (mute : Bool) : List Delivery :=
  deliver bus .muteToggled (.mixerScope mixer.id) (.bool mute) ++
    deliver bus .muteToggled (.trackScope track.id) (.bool mute)

/-- gst_mixer_record_toggled (mixer.c lines 289-297): emit record-toggled
on the mixer object, then by name on the track object. -/
def gst_mixer_record_toggled (bus : Bus) (mixer : GstMixer)
    (track : GstMixerTrack) (record : Bool) : List Delivery :=
  deliver bus .recordToggled (.mixerScope mixer.id) (.bool record) ++
    deliver bus .recordToggled (.trackScope track.id) (.bool record)

/-- gst_mixer_volume_changed (mixer.c lines 299-307): emit volume-changed
on the mixer object, then by name on the track object. -/
def gst_mixer_volume_changed (bus : Bus) (mixer : GstMixer)
    (track : GstMixerTrack) (volumes : List Int) : List Delivery :=
  deliver bus .volumeChanged (.mixerScope mixer.id) (.volumes volumes) ++
    deliver bus .volumeChanged (.trackScope track.id) (.volumes volumes)

/-- gst_mixer_option_changed (mixer.c lines 309-317): emit option-changed
on the mixer object, then by name ("value_changed") on the options
object. -/
def gst_mixer_option_changed (bus : Bus) (mixer : GstMixer)
    (opts : GstMixerOptions) (value : Option String) : List Delivery :=
  deliver bus .optionChanged (.mixerScope mixer.id) (.str value) ++
    deliver bus .optionChanged (.optionsScope opts.id) (.str value)

/-! Helper lemmas about the zero-fill loop. -/

lemma zeroFill_of_not_lt {n i : Int} (h : ¬ i < n) (buf : List Int) :
    zeroFill n i buf = buf := by
  rw [zeroFill, if_neg h]

lemma zeroFill_length (n i : Int) (buf : List Int) :
    (zeroFill n i buf).length = buf.length := by
  induction i, buf using zeroFill.induct n with
  | case1 i buf h ih => rw [zeroFill, if_pos h]; simpa using ih
  | case2 i buf h => rw [zeroFill, if_neg h]

lemma zeroFill_getElem? (n i : Int) (buf : List Int) (j : Nat) :
    0 ≤ i →
      (zeroFill n i buf)[j]? =
        if i ≤ (j : Int) ∧ (j : Int) < n ∧ j < buf.length then some 0
        else buf[j]? := by
  induction i, buf using zeroFill.induct n with
  | case1 i buf h ih =>
    intro hi
    rw [zeroFill, if_pos h, ih (by omega), List.length_set, List.getElem?_set]
    split_ifs <;>
      first
        | rfl
        | (exfalso; omega)
        | (exact (List.getElem?_eq_none (by omega)).symm)
  | case2 i buf h =>
    intro hi
    rw [zeroFill, if_neg h, if_neg (by omega)]

lemma zeroFill_eq_replicate (n : Int) (buf : List Int) (_hn : 0 ≤ n)
    (hlen : buf.length = n.toNat) :
    zeroFill n 0 buf = List.replicate n.toNat 0 := by
  apply List.ext_getElem?
  intro j
  rw [zeroFill_getElem? n 0 buf j le_rfl, List.getElem?_replicate]
  split_ifs <;>
    first
      | rfl
      | (exfalso; omega)
      | (exact List.getElem?_eq_none (by omega))


/-! Dispatch lemmas: what each wrapper does when its slot is NULL. -/

lemma gst_mixer_list_tracks_of_none {σ : Type} {klass : GstMixerClass σ}
    (st : σ) (h : klass.list_tracks = none) :
    gst_mixer_list_tracks klass st = [] := by
  unfold gst_mixer_list_tracks
  rw [h]

lemma gst_mixer_set_volume_of_none {σ : Type} {klass : GstMixerClass σ}
    (st : σ) (track : GstMixerTrack) (volumes : List Int)
    (h : klass.set_volume = none) :
    gst_mixer_set_volume klass st track volumes = (st, []) := by
  unfold gst_mixer_set_volume
  rw [h]

lemma gst_mixer_get_volume_of_none {σ : Type} {klass : GstMixerClass σ}
    (st : σ) (track : GstMixerTrack) (volumes : List Int)
    (h : klass.get_volume = none) :
    gst_mixer_get_volume klass st track volumes =
      zeroFill track.num_channels 0 volumes := by
  unfold gst_mixer_get_volume
  rw [h]

lemma gst_mixer_set_mute_of_none {σ : Type} {klass : GstMixerClass σ}
    (st : σ) (track : GstMixerTrack) (mute : Bool)
    (h : klass.set_mute = none) :
    gst_mixer_set_mute klass st track mute = (st, []) := by
  unfold gst_mixer_set_mute
  rw [h]

lemma gst_mixer_set_record_of_none {σ : Type} {klass : GstMixerClass σ}
    (st : σ) (track : GstMixerTrack) (record : Bool)
    (h : klass.set_record = none) :
    gst_mixer_set_record klass st track record = (st, []) := by
  unfold gst_mixer_set_record
  rw [h]

lemma gst_mixer_set_option_of_none {σ : Type} {klass : GstMixerClass σ}
    (st : σ) (opts : GstMixerOptions) (value : Option String)
    (h : klass.«set_option» = none) :
    gst_mixer_set_option klass st opts value = (st, []) := by
  unfold gst_mixer_set_option
  rw [h]

lemma gst_mixer_get_option_of_none {σ : Type} {klass : GstMixerClass σ}
    (st : σ) (opts : GstMixerOptions) (h : klass.get_option = none) :
    gst_mixer_get_option klass st opts = none := by
  unfold gst_mixer_get_option
  rw [h]

/-- C1: on a device whose class has no get_volume implementation,
gst_mixer_get_volume writes 0 into the caller's pre-sized buffer at every
index below track.num_channels, so the buffer becomes exactly
track.num_channels zeros and its length is unchanged. -/
theorem get_volume_unimplemented_fills_zeros {σ : Type}
    (klass : GstMixerClass σ) (st : σ) (track : GstMixerTrack)
    (buf : List Int)
    (himpl : klass.get_volume = none)
    (hn : 0 ≤ track.num_channels)
    (hlen : buf.length = track.num_channels.toNat) :
    gst_mixer_get_volume klass st track buf =
      List.replicate track.num_channels.toNat 0 ∧
    (gst_mixer_get_volume klass st track buf).length = buf.length := by
  have hmain : gst_mixer_get_volume klass st track buf =
      List.replicate track.num_channels.toNat 0 := by
    rw [gst_mixer_get_volume_of_none st track buf himpl,
      zeroFill_eq_replicate track.num_channels buf hn hlen]
  exact ⟨hmain, by rw [hmain, List.length_replicate, hlen]⟩

/-- Witness for C1 at a concrete input: a two-channel track and the
buffer [5, 7], which becomes [0, 0]. -/
theorem get_volume_unimplemented_fills_zeros_witness :
    (classInitDefaults Unit).get_volume = none ∧
    0 ≤ (GstMixerTrack.mk 1 2).num_channels ∧
    ([5, 7] : List Int).length = (GstMixerTrack.mk 1 2).num_channels.toNat ∧
    (gst_mixer_get_volume (classInitDefaults Unit) () (GstMixerTrack.mk 1 2)
        [5, 7] =
      List.replicate (GstMixerTrack.mk 1 2).num_channels.toNat 0 ∧
    (gst_mixer_get_volume (classInitDefaults Unit) () (GstMixerTrack.mk 1 2)
        [5, 7]).length = ([5, 7] : List Int).length) :=
  ⟨rfl, by decide, rfl,
    get_volume_unimplemented_fills_zeros (classInitDefaults Unit) ()
      (GstMixerTrack.mk 1 2) [5, 7] rfl (by decide) rfl⟩

/-- C2: on a device whose class has no list_tracks implementation,
gst_mixer_list_tracks returns the empty track sequence (the C code
returns NULL, which is the one and only representation of the empty
GList, not a value distinct from it). -/
theorem list_tracks_unimplemented_empty {σ : Type}
    (klass : GstMixerClass σ) (st : σ) (h : klass.list_tracks = none) :
    gst_mixer_list_tracks klass st = [] ∧
    (gst_mixer_list_tracks klass st).length = 0 := by
  have hm := gst_mixer_list_tracks_of_none st h
  exact ⟨hm, by rw [hm]; rfl⟩

/-- Witness for C2 at a concrete input. -/
theorem list_tracks_unimplemented_empty_witness :
    (classInitDefaults Nat).list_tracks = none ∧
    (gst_mixer_list_tracks (classInitDefaults Nat) 0 = [] ∧
    (gst_mixer_list_tracks (classInitDefaults Nat) 0).length = 0) :=
  ⟨rfl, list_tracks_unimplemented_empty (classInitDefaults Nat) 0 rfl⟩

/-- C3: on a device whose class has no get_option implementation,
gst_mixer_get_option returns the no-value sentinel (NULL, embedded as
none), which is distinct from every legal value token (every non-NULL
string, embedded as some s). -/
theorem get_option_unimplemented_sentinel {σ : Type}
    (klass : GstMixerClass σ) (st : σ) (opts : GstMixerOptions)
    (h : klass.get_option = none) :
    gst_mixer_get_option klass st opts = none ∧
    ∀ s : String, gst_mixer_get_option klass st opts ≠ some s := by
  have hm := gst_mixer_get_option_of_none st opts h
  refine ⟨hm, fun s hs => ?_⟩
  rw [hm] at hs
  exact Option.noConfusion hs

/-- Witness for C3 at a concrete input. -/
theorem get_option_unimplemented_sentinel_witness :
    (classInitDefaults Unit).get_option = none ∧
    (gst_mixer_get_option (classInitDefaults Unit) () (GstMixerOptions.mk 3) =
        none ∧
    ∀ s : String,
      gst_mixer_get_option (classInitDefaults Unit) () (GstMixerOptions.mk 3) ≠
        some s) :=
  ⟨rfl, get_option_unimplemented_sentinel (classInitDefaults Unit) ()
    (GstMixerOptions.mk 3) rfl⟩

/-- A concrete device used by the C4 and C5 witnesses: its state is the
stored per-channel volume array. -/
def demoListTracks (st : List Int) : List GstMixerTrack :=
  [GstMixerTrack.mk 0 (st.length : Int)]

/-- Concrete set_volume implementation for the witnesses: store the new
volumes and emit a volume-changed delivery. -/
def demoSetVolume (_st : List Int) (track : GstMixerTrack)
    (volumes : List Int) : List Int × List Delivery :=
  (volumes, [⟨9, .volumeChanged, .trackScope track.id, .volumes volumes, true⟩])

/-- Concrete get_volume implementation for the witnesses: return the
stored volumes. -/
def demoGetVolume (st : List Int) (_track : GstMixerTrack)
    (_buf : List Int) : List Int :=
  st

/-- Concrete set_mute implementation for the C5 witness. -/
def demoSetMute (st : List Int) (track : GstMixerTrack) (mute : Bool) :
    List Int × List Delivery :=
  (st, [⟨1, .muteToggled, .trackScope track.id, .bool mute, true⟩])

/-- Concrete set_record implementation for the C5 witness. -/
def demoSetRecord (st : List Int) (_track : GstMixerTrack) (_record : Bool) :
    List Int × List Delivery :=
  (st, [])

/-- Concrete set_option implementation for the C5 witness. -/
def demoSetOption (st : List Int) (_opts : GstMixerOptions)
    (_value : Option String) : List Int × List Delivery :=
  (st, [])

/-- Concrete get_option implementation for the C5 witness. -/
def demoGetOption (_st : List Int) (_opts : GstMixerOptions) : Option String :=
  some "line-in"

/-- A class with all seven slots implemented, for the C5 witness. -/
def demoImplClass : GstMixerClass (List Int) :=
  ⟨some demoListTracks, some demoSetVolume, some demoGetVolume,
    some demoSetMute, some demoSetRecord, some demoSetOption,
    some demoGetOption⟩

/-- A partially-implemented device for the C4 and C5 witnesses: it
implements only set_volume and get_volume (the shape of the worked
example in spec section 8) and leaves the other five slots NULL. -/
def demoPartialClass : GstMixerClass (List Int) :=
  ⟨none, some demoSetVolume, some demoGetVolume, none, none, none, none⟩

/-- C4: each of the four setters is a complete no-op whenever its own
slot is NULL, regardless of which other capabilities the device
implements: the device state is returned unchanged, the delivery log is
empty (no notification fired), and the call returns normally (the
wrappers are total functions). -/
theorem setters_unimplemented_noop {σ : Type}
    (klass : GstMixerClass σ) (st : σ) (track : GstMixerTrack)
    (opts : GstMixerOptions) (volumes : List Int) (b r : Bool)
    (v : Option String) :
    (klass.set_volume = none →
      gst_mixer_set_volume klass st track volumes = (st, [])) ∧
    (klass.set_mute = none →
      gst_mixer_set_mute klass st track b = (st, [])) ∧
    (klass.set_record = none →
      gst_mixer_set_record klass st track r = (st, [])) ∧
    (klass.«set_option» = none →
      gst_mixer_set_option klass st opts v = (st, [])) :=
  ⟨fun h => gst_mixer_set_volume_of_none st track volumes h,
    fun h => gst_mixer_set_mute_of_none st track b h,
    fun h => gst_mixer_set_record_of_none st track r h,
    fun h => gst_mixer_set_option_of_none st opts v h⟩

/-- Witness for C4 at concrete inputs: on a device implementing only
set_volume and get_volume, the other three setters are no-ops; on a
device with no capabilities, set_volume is a no-op too. -/
theorem setters_unimplemented_noop_witness :
    demoPartialClass.set_mute = none ∧
    demoPartialClass.set_record = none ∧
    demoPartialClass.«set_option» = none ∧
    (classInitDefaults Nat).set_volume = none ∧
    gst_mixer_set_mute demoPartialClass [50, 50] (GstMixerTrack.mk 0 2)
      true = ([50, 50], []) ∧
    gst_mixer_set_record demoPartialClass [50, 50] (GstMixerTrack.mk 0 2)
      false = ([50, 50], []) ∧
    gst_mixer_set_option demoPartialClass [50, 50] (GstMixerOptions.mk 3)
      (some "mic") = ([50, 50], []) ∧
    gst_mixer_set_volume (classInitDefaults Nat) 42 (GstMixerTrack.mk 0 2)
      [80, 90] = (42, []) := by
  have tp := setters_unimplemented_noop demoPartialClass [50, 50]
    (GstMixerTrack.mk 0 2) (GstMixerOptions.mk 3) [80, 90] true false
    (some "mic")
  have td := setters_unimplemented_noop (classInitDefaults Nat) 42
    (GstMixerTrack.mk 0 2) (GstMixerOptions.mk 3) [80, 90] true false
    (some "mic")
  exact ⟨rfl, rfl, rfl, rfl, tp.2.1 rfl, tp.2.2.1 rfl, tp.2.2.2 rfl,
    td.1 rfl⟩

/-- C5: whenever a capability slot is implemented — independently of the
other six slots — the corresponding wrapper invokes exactly that
implementation, passing the caller's arguments through unchanged and
returning its result unchanged, for each of the seven operations. -/
theorem facade_pass_through {σ : Type} (klass : GstMixerClass σ) (st : σ)
    (track : GstMixerTrack) (opts : GstMixerOptions)
    (volumes buf : List Int) (b r : Bool) (v : Option String) :
    (∀ fl, klass.list_tracks = some fl →
      gst_mixer_list_tracks klass st = fl st) ∧
    (∀ fsv, klass.set_volume = some fsv →
      gst_mixer_set_volume klass st track volumes = fsv st track volumes) ∧
    (∀ fgv, klass.get_volume = some fgv →
      gst_mixer_get_volume klass st track buf = fgv st track buf) ∧
    (∀ fsm, klass.set_mute = some fsm →
      gst_mixer_set_mute klass st track b = fsm st track b) ∧
    (∀ fsr, klass.set_record = some fsr →
      gst_mixer_set_record klass st track r = fsr st track r) ∧
    (∀ fso, klass.«set_option» = some fso →
      gst_mixer_set_option klass st opts v = fso st opts v) ∧
    (∀ fgo, klass.get_option = some fgo →
      gst_mixer_get_option klass st opts = fgo st opts) := by
  refine ⟨?_, ?_, ?_, ?_, ?_, ?_, ?_⟩ <;> intro f h
  · unfold gst_mixer_list_tracks
    rw [h]
  · unfold gst_mixer_set_volume
    rw [h]
  · unfold gst_mixer_get_volume
    rw [h]
  · unfold gst_mixer_set_mute
    rw [h]
  · unfold gst_mixer_set_record
    rw [h]
  · unfold gst_mixer_set_option
    rw [h]
  · unfold gst_mixer_get_option
    rw [h]

/-- Witness for C5 at concrete inputs: pass-through on the two
implemented slots of the partially-implemented device, and on all seven
slots of the fully-implemented one. -/
theorem facade_pass_through_witness :
    demoPartialClass.set_volume = some demoSetVolume ∧
    demoPartialClass.get_volume = some demoGetVolume ∧
    gst_mixer_set_volume demoPartialClass [50, 50] (GstMixerTrack.mk 0 2)
      [80, 90] = demoSetVolume [50, 50] (GstMixerTrack.mk 0 2) [80, 90] ∧
    gst_mixer_get_volume demoPartialClass [80, 90] (GstMixerTrack.mk 0 2)
      [0, 0] = demoGetVolume [80, 90] (GstMixerTrack.mk 0 2) [0, 0] ∧
    demoImplClass.list_tracks = some demoListTracks ∧
    demoImplClass.set_volume = some demoSetVolume ∧
    demoImplClass.get_volume = some demoGetVolume ∧
    demoImplClass.set_mute = some demoSetMute ∧
    demoImplClass.set_record = some demoSetRecord ∧
    demoImplClass.«set_option» = some demoSetOption ∧
    demoImplClass.get_option = some demoGetOption ∧
    (gst_mixer_list_tracks demoImplClass [50, 50] = demoListTracks [50, 50] ∧
    gst_mixer_set_volume demoImplClass [50, 50] (GstMixerTrack.mk 0 2)
        [80, 90] = demoSetVolume [50, 50] (GstMixerTrack.mk 0 2) [80, 90] ∧
    gst_mixer_get_volume demoImplClass [50, 50] (GstMixerTrack.mk 0 2)
        [0, 0] = demoGetVolume [50, 50] (GstMixerTrack.mk 0 2) [0, 0] ∧
    gst_mixer_set_mute demoImplClass [50, 50] (GstMixerTrack.mk 0 2) true =
      demoSetMute [50, 50] (GstMixerTrack.mk 0 2) true ∧
    gst_mixer_set_record demoImplClass [50, 50] (GstMixerTrack.mk 0 2)
        false = demoSetRecord [50, 50] (GstMixerTrack.mk 0 2) false ∧
    gst_mixer_set_option demoImplClass [50, 50] (GstMixerOptions.mk 3)
        (some "mic") = demoSetOption [50, 50] (GstMixerOptions.mk 3)
        (some "mic") ∧
    gst_mixer_get_option demoImplClass [50, 50] (GstMixerOptions.mk 3) =
      demoGetOption [50, 50] (GstMixerOptions.mk 3)) := by
  have tp := facade_pass_through demoPartialClass [50, 50]
    (GstMixerTrack.mk 0 2) (GstMixerOptions.mk 3) [80, 90] [0, 0] true
    false (some "mic")
  have tq := facade_pass_through demoPartialClass [80, 90]
    (GstMixerTrack.mk 0 2) (GstMixerOptions.mk 3) [80, 90] [0, 0] true
    false (some "mic")
  have ti := facade_pass_through demoImplClass [50, 50]
    (GstMixerTrack.mk 0 2) (GstMixerOptions.mk 3) [80, 90] [0, 0] true
    false (some "mic")
  exact ⟨rfl, rfl, tp.2.1 demoSetVolume rfl, tq.2.2.1 demoGetVolume rfl,
    rfl, rfl, rfl, rfl, rfl, rfl, rfl,
    ti.1 demoListTracks rfl, ti.2.1 demoSetVolume rfl,
    ti.2.2.1 demoGetVolume rfl, ti.2.2.2.1 demoSetMute rfl,
    ti.2.2.2.2.1 demoSetRecord rfl, ti.2.2.2.2.2.1 demoSetOption rfl,
    ti.2.2.2.2.2.2 demoGetOption rfl⟩

/-- C9: the get_volume fallback writes only buffer indices below
track.num_channels — every index at or beyond num_channels keeps its
previous content and the buffer length is preserved — and when
num_channels is zero or negative the loop body never runs, so the buffer
is returned entirely untouched. -/
theorem get_volume_fallback_frame {σ : Type} (klass : GstMixerClass σ)
    (st : σ) (track : GstMixerTrack) (buf : List Int)
    (himpl : klass.get_volume = none) :
    (∀ j : Nat, track.num_channels ≤ (j : Int) →
      (gst_mixer_get_volume klass st track buf)[j]? = buf[j]?) ∧
    (gst_mixer_get_volume klass st track buf).length = buf.length ∧
    (track.num_channels ≤ 0 → gst_mixer_get_volume klass st track buf = buf) := by
  rw [gst_mixer_get_volume_of_none st track buf himpl]
  refine ⟨?_, zeroFill_length _ _ _, ?_⟩
  · intro j hj
    rw [zeroFill_getElem? track.num_channels 0 buf j le_rfl,
      if_neg (by omega)]
  · intro hn
    exact zeroFill_of_not_lt (by omega) buf

/-- Witness for C9 at a concrete input with a negative channel count:
the buffer [4, 5, 6] is returned untouched. -/
theorem get_volume_fallback_frame_witness :
    (classInitDefaults Unit).get_volume = none ∧
    (GstMixerTrack.mk 2 (-3)).num_channels ≤ 0 ∧
    gst_mixer_get_volume (classInitDefaults Unit) () (GstMixerTrack.mk 2 (-3))
      [4, 5, 6] = [4, 5, 6] :=
  ⟨rfl, by decide,
    (get_volume_fallback_frame (classInitDefaults Unit) ()
      (GstMixerTrack.mk 2 (-3)) [4, 5, 6] rfl).2.2 (by decide)⟩

/-- One deferred facade mutation request, for stating that the facade
layer itself keeps no state across calls. -/
inductive SetCall where
  | setVolume (track : GstMixerTrack) (volumes : List Int)
  | setMute (track : GstMixerTrack) (mute : Bool)
  | setRecord (track : GstMixerTrack) (record : Bool)
  | setOption (opts : GstMixerOptions) (value : Option String)

/-- Dispatch one facade mutation request through the wrappers. -/
def runSetCall {σ : Type} (klass : GstMixerClass σ) (st : σ) :
    SetCall → σ × List Delivery
  | .setVolume t v => gst_mixer_set_volume klass st t v
  | .setMute t b => gst_mixer_set_mute klass st t b
  | .setRecord t r => gst_mixer_set_record klass st t r
  | .setOption o v => gst_mixer_set_option klass st o v

/-- Run a sequence of facade mutation requests, threading the device
state and concatenating the delivery logs in order. -/
def runCalls {σ : Type} (klass : GstMixerClass σ) (st : σ) :
    List SetCall → σ × List Delivery
  | [] => (st, [])
  | c :: cs =>
    let r := runSetCall klass st c
    let rest := runCalls klass r.1 cs
    (rest.1, r.2 ++ rest.2)

lemma runCalls_of_all_none {σ : Type} {klass : GstMixerClass σ}
    (h2 : klass.set_volume = none) (h4 : klass.set_mute = none)
    (h5 : klass.set_record = none) (h6 : klass.«set_option» = none) :
    ∀ (calls : List SetCall) (st : σ), runCalls klass st calls = (st, []) := by
  intro calls
  induction calls with
  | nil => intro st; rfl
  | cons c cs ih =>
    intro st
    have hc : runSetCall klass st c = (st, []) := by
      cases c with
      | setVolume t v => exact gst_mixer_set_volume_of_none st t v h2
      | setMute t b => exact gst_mixer_set_mute_of_none st t b h4
      | setRecord t r => exact gst_mixer_set_record_of_none st t r h5
      | setOption o v => exact gst_mixer_set_option_of_none st o v h6
    show (let r := runSetCall klass st c
          let rest := runCalls klass r.1 cs
          (rest.1, r.2 ++ rest.2)) = (st, [])
    rw [hc]
    simp only [ih st]
    rfl

/-- C10: on a device implementing none of the seven capabilities, any
sequence of setter calls leaves the device state untouched and fires
nothing, and afterwards get_volume still zero-fills, get_option still
returns the sentinel, and list_tracks is still empty — the facade layer
keeps no mutable state of its own. -/
theorem facade_keeps_no_state {σ : Type} (klass : GstMixerClass σ)
    (st : σ) (calls : List SetCall) (track : GstMixerTrack)
    (buf : List Int) (opts : GstMixerOptions)
    (h1 : klass.list_tracks = none) (h2 : klass.set_volume = none)
    (h3 : klass.get_volume = none) (h4 : klass.set_mute = none)
    (h5 : klass.set_record = none) (h6 : klass.«set_option» = none)
    (h7 : klass.get_option = none)
    (hn : 0 ≤ track.num_channels)
    (hlen : buf.length = track.num_channels.toNat) :
    runCalls klass st calls = (st, []) ∧
    gst_mixer_get_volume klass (runCalls klass st calls).1 track buf =
      List.replicate track.num_channels.toNat 0 ∧
    gst_mixer_get_option klass (runCalls klass st calls).1 opts = none ∧
    gst_mixer_list_tracks klass (runCalls klass st calls).1 = [] := by
  have hr := runCalls_of_all_none h2 h4 h5 h6 calls st
  refine ⟨hr, ?_, ?_, ?_⟩
  · rw [gst_mixer_get_volume_of_none _ track buf h3,
      zeroFill_eq_replicate track.num_channels buf hn hlen]
  · exact gst_mixer_get_option_of_none _ opts h7
  · exact gst_mixer_list_tracks_of_none _ h1

/-- Witness for C10 at a concrete input: three setter calls on a
capability-free device with state 5, after which the reads are
unaffected. -/
theorem facade_keeps_no_state_witness :
    (classInitDefaults Nat).list_tracks = none ∧
    (classInitDefaults Nat).get_option = none ∧
    0 ≤ (GstMixerTrack.mk 0 2).num_channels ∧
    ([1, 2] : List Int).length = (GstMixerTrack.mk 0 2).num_channels.toNat ∧
    (runCalls (classInitDefaults Nat) 5
        [SetCall.setMute (GstMixerTrack.mk 0 2) true,
          SetCall.setVolume (GstMixerTrack.mk 0 2) [80, 90],
          SetCall.setOption (GstMixerOptions.mk 3) (some "mic")] = (5, []) ∧
    gst_mixer_get_volume (classInitDefaults Nat)
        (runCalls (classInitDefaults Nat) 5
          [SetCall.setMute (GstMixerTrack.mk 0 2) true,
            SetCall.setVolume (GstMixerTrack.mk 0 2) [80, 90],
            SetCall.setOption (GstMixerOptions.mk 3) (some "mic")]).1
        (GstMixerTrack.mk 0 2) [1, 2] =
      List.replicate (GstMixerTrack.mk 0 2).num_channels.toNat 0 ∧
    gst_mixer_get_option (classInitDefaults Nat)
        (runCalls (classInitDefaults Nat) 5
          [SetCall.setMute (GstMixerTrack.mk 0 2) true,
            SetCall.setVolume (GstMixerTrack.mk 0 2) [80, 90],
            SetCall.setOption (GstMixerOptions.mk 3) (some "mic")]).1
        (GstMixerOptions.mk 3) = none ∧
    gst_mixer_list_tracks (classInitDefaults Nat)
        (runCalls (classInitDefaults Nat) 5
          [SetCall.setMute (GstMixerTrack.mk 0 2) true,
            SetCall.setVolume (GstMixerTrack.mk 0 2) [80, 90],
            SetCall.setOption (GstMixerOptions.mk 3) (some "mic")]).1 = []) :=
  ⟨rfl, rfl, by decide, rfl,
    facade_keeps_no_state (classInitDefaults Nat) 5
      [SetCall.setMute (GstMixerTrack.mk 0 2) true,
        SetCall.setVolume (GstMixerTrack.mk 0 2) [80, 90],
        SetCall.setOption (GstMixerOptions.mk 3) (some "mic")]
      (GstMixerTrack.mk 0 2) [1, 2] (GstMixerOptions.mk 3)
      rfl rfl rfl rfl rfl rfl rfl (by decide) rfl⟩

/-! Helper lemmas about signal delivery. -/

lemma deliver_map_subId (bus : Bus) (kind : SigKind) (scope : Scope)
    (p : Payload) :
    (deliver bus kind scope p).map Delivery.subId =
      (bus.subs.filter (fun s => s.kind = kind ∧ s.scope = scope)).map
        Subscription.subId := by
  unfold deliver
  rw [List.map_map]
  rfl

lemma deliver_mem (bus : Bus) (kind : SigKind) (scope : Scope)
    (p : Payload) :
    ∀ d ∈ deliver bus kind scope p,
      d.kind = kind ∧ d.scope = scope ∧ d.payload = p := by
  intro d hd
  unfold deliver at hd
  obtain ⟨s, _, rfl⟩ := List.mem_map.1 hd
  exact ⟨rfl, rfl, rfl⟩

lemma deliver_receives (bus : Bus) (kind : SigKind) (scope : Scope)
    (p : Payload) (s : Subscription) (hs : s ∈ bus.subs)
    (hk : s.kind = kind) (hsc : s.scope = scope) :
    (⟨s.subId, kind, scope, p, s.handler p⟩ : Delivery) ∈
      deliver bus kind scope p := by
  unfold deliver
  exact List.mem_map.2 ⟨s, List.mem_filter.2 ⟨hs, by simp [hk, hsc]⟩, rfl⟩

lemma two_scope_emission (bus : Bus) (kind : SigKind) (sc1 sc2 : Scope)
    (p : Payload) :
    ∃ A B, deliver bus kind sc1 p ++ deliver bus kind sc2 p = A ++ B ∧
      A.map Delivery.subId =
        (bus.subs.filter (fun s => s.kind = kind ∧ s.scope = sc1)).map
          Subscription.subId ∧
      B.map Delivery.subId =
        (bus.subs.filter (fun s => s.kind = kind ∧ s.scope = sc2)).map
          Subscription.subId ∧
      (∀ d ∈ A, d.kind = kind ∧ d.scope = sc1 ∧ d.payload = p) ∧
      (∀ d ∈ B, d.kind = kind ∧ d.scope = sc2 ∧ d.payload = p) :=
  ⟨deliver bus kind sc1 p, deliver bus kind sc2 p, rfl,
    deliver_map_subId bus kind sc1 p, deliver_map_subId bus kind sc2 p,
    deliver_mem bus kind sc1 p, deliver_mem bus kind sc2 p⟩

/-- C6: every invocation of each of the four notification helpers yields
one delivery pass to the device-scoped observers followed by one to the
entity-scoped observers: the log splits as A ++ B where A reaches exactly
the subscriptions of matching kind at device scope, in registration
order, and B reaches exactly those at the track (or options) scope, every
delivery carrying the invocation's payload. Both passes are part of the
value the call returns, so they are complete when it returns. -/
theorem notify_two_scopes_in_order (bus : Bus) (mixer : GstMixer)
    (track : GstMixerTrack) (opts : GstMixerOptions) (mute record : Bool)
    (volumes : List Int) (value : Option String) :
    (∃ A B, gst_mixer_mute_toggled bus mixer track mute = A ++ B ∧
      A.map Delivery.subId =
        (bus.subs.filter (fun s =>
          s.kind = SigKind.muteToggled ∧
          s.scope = Scope.mixerScope mixer.id)).map Subscription.subId ∧
      B.map Delivery.subId =
        (bus.subs.filter (fun s =>
          s.kind = SigKind.muteToggled ∧
          s.scope = Scope.trackScope track.id)).map Subscription.subId ∧
      (∀ d ∈ A, d.kind = SigKind.muteToggled ∧
        d.scope = Scope.mixerScope mixer.id ∧ d.payload = .bool mute) ∧
      (∀ d ∈ B, d.kind = SigKind.muteToggled ∧
        d.scope = Scope.trackScope track.id ∧ d.payload = .bool mute)) ∧
    (∃ A B, gst_mixer_record_toggled bus mixer track record = A ++ B ∧
      A.map Delivery.subId =
        (bus.subs.filter (fun s =>
          s.kind = SigKind.recordToggled ∧
          s.scope = Scope.mixerScope mixer.id)).map Subscription.subId ∧
      B.map Delivery.subId =
        (bus.subs.filter (fun s =>
          s.kind = SigKind.recordToggled ∧
          s.scope = Scope.trackScope track.id)).map Subscription.subId ∧
      (∀ d ∈ A, d.kind = SigKind.recordToggled ∧
        d.scope = Scope.mixerScope mixer.id ∧ d.payload = .bool record) ∧
      (∀ d ∈ B, d.kind = SigKind.recordToggled ∧
        d.scope = Scope.trackScope track.id ∧ d.payload = .bool record)) ∧
    (∃ A B, gst_mixer_volume_changed bus mixer track volumes = A ++ B ∧
      A.map Delivery.subId =
        (bus.subs.filter (fun s =>
          s.kind = SigKind.volumeChanged ∧
          s.scope = Scope.mixerScope mixer.id)).map Subscription.subId ∧
      B.map Delivery.subId =
        (bus.subs.filter (fun s =>
          s.kind = SigKind.volumeChanged ∧
          s.scope = Scope.trackScope track.id)).map Subscription.subId ∧
      (∀ d ∈ A, d.kind = SigKind.volumeChanged ∧
        d.scope = Scope.mixerScope mixer.id ∧
        d.payload = .volumes volumes) ∧
      (∀ d ∈ B, d.kind = SigKind.volumeChanged ∧
        d.scope = Scope.trackScope track.id ∧
        d.payload = .volumes volumes)) ∧
    (∃ A B, gst_mixer_option_changed bus mixer opts value = A ++ B ∧
      A.map Delivery.subId =
        (bus.subs.filter (fun s =>
          s.kind = SigKind.optionChanged ∧
          s.scope = Scope.mixerScope mixer.id)).map Subscription.subId ∧
      B.map Delivery.subId =
        (bus.subs.filter (fun s =>
          s.kind = SigKind.optionChanged ∧
          s.scope = Scope.optionsScope opts.id)).map Subscription.subId ∧
      (∀ d ∈ A, d.kind = SigKind.optionChanged ∧
        d.scope = Scope.mixerScope mixer.id ∧ d.payload = .str value) ∧
      (∀ d ∈ B, d.kind = SigKind.optionChanged ∧
        d.scope = Scope.optionsScope opts.id ∧ d.payload = .str value)) :=
  ⟨two_scope_emission bus .muteToggled (.mixerScope mixer.id)
      (.trackScope track.id) (.bool mute),
    two_scope_emission bus .recordToggled (.mixerScope mixer.id)
      (.trackScope track.id) (.bool record),
    two_scope_emission bus .volumeChanged (.mixerScope mixer.id)
      (.trackScope track.id) (.volumes volumes),
    two_scope_emission bus .optionChanged (.mixerScope mixer.id)
      (.optionsScope opts.id) (.str value)⟩

lemma mute_toggled_mem (bus : Bus) (mixer : GstMixer)
    (track : GstMixerTrack) (mute : Bool) :
    ∀ d ∈ gst_mixer_mute_toggled bus mixer track mute,
      d.kind = SigKind.muteToggled ∧ d.payload = .bool mute := by
  intro d hd
  rcases List.mem_append.1 hd with h | h
  · have := deliver_mem _ _ _ _ d h
    exact ⟨this.1, this.2.2⟩
  · have := deliver_mem _ _ _ _ d h
    exact ⟨this.1, this.2.2⟩

/-- C7: two consecutive invocations of gst_mixer_mute_toggled with the
same track and value true produce the concatenation of two identical
full two-scope delivery logs — every delivery carries true, every
observer receives the event twice as often as in a single invocation,
and the combined log is twice as long: nothing is deduplicated. -/
theorem mute_toggled_twice_no_dedup (bus : Bus) (mixer : GstMixer)
    (track : GstMixerTrack) :
    (gst_mixer_mute_toggled bus mixer track true ++
        gst_mixer_mute_toggled bus mixer track true).length =
      2 * (gst_mixer_mute_toggled bus mixer track true).length ∧
    (∀ d ∈ gst_mixer_mute_toggled bus mixer track true ++
        gst_mixer_mute_toggled bus mixer track true,
      d.kind = SigKind.muteToggled ∧ d.payload = .bool true) ∧
    (∀ g : Delivery → Bool,
      ((gst_mixer_mute_toggled bus mixer track true ++
          gst_mixer_mute_toggled bus mixer track true).filter g).length =
        2 * ((gst_mixer_mute_toggled bus mixer track true).filter g).length) := by
  refine ⟨?_, ?_, ?_⟩
  · rw [List.length_append]
    omega
  · intro d hd
    rcases List.mem_append.1 hd with h | h <;>
      exact mute_toggled_mem bus mixer track true d h
  · intro g
    rw [List.filter_append, List.length_append]
    omega

/-- C8: observer failures are isolated. If a matching observer whose
handler fails (models a handler that raises) is registered anywhere
before another matching observer, the later observer still receives its
delivery with the invocation's payload, the failing observer's delivery
is recorded as failed, and gst_mixer_mute_toggled still returns its full
two-scope log (it is a total function, so the triggering call completes
normally and no failure propagates to the emitter). -/
theorem mute_toggled_failure_isolated (pre mid post : List Subscription)
    (a b : Subscription) (mixer : GstMixer) (track : GstMixerTrack)
    (mute : Bool)
    (hafail : a.handler (.bool mute) = false)
    (hak : a.kind = SigKind.muteToggled)
    (hasc : a.scope = Scope.mixerScope mixer.id ∨
      a.scope = Scope.trackScope track.id)
    (hbk : b.kind = SigKind.muteToggled)
    (hbsc : b.scope = Scope.mixerScope mixer.id ∨
      b.scope = Scope.trackScope track.id) :
    (∃ d ∈ gst_mixer_mute_toggled ⟨pre ++ a :: mid ++ b :: post⟩ mixer
        track mute, d.subId = a.subId ∧ d.ok = false) ∧
    (∃ d ∈ gst_mixer_mute_toggled ⟨pre ++ a :: mid ++ b :: post⟩ mixer
        track mute, d.subId = b.subId ∧ d.payload = .bool mute ∧
        d.ok = b.handler (.bool mute)) := by
  have hamem : a ∈ (Bus.mk (pre ++ a :: mid ++ b :: post)).subs := by
    simp
  have hbmem : b ∈ (Bus.mk (pre ++ a :: mid ++ b :: post)).subs := by
    simp
  constructor
  · rcases hasc with hsc | hsc
    · exact ⟨⟨a.subId, .muteToggled, .mixerScope mixer.id, .bool mute,
          a.handler (.bool mute)⟩,
        List.mem_append.2 (Or.inl
          (deliver_receives _ _ _ _ a hamem hak hsc)),
        rfl, hafail⟩
    · exact ⟨⟨a.subId, .muteToggled, .trackScope track.id, .bool mute,
          a.handler (.bool mute)⟩,
        List.mem_append.2 (Or.inr
          (deliver_receives _ _ _ _ a hamem hak hsc)),
        rfl, hafail⟩
  · rcases hbsc with hsc | hsc
    · exact ⟨⟨b.subId, .muteToggled, .mixerScope mixer.id, .bool mute,
          b.handler (.bool mute)⟩,
        List.mem_append.2 (Or.inl
          (deliver_receives _ _ _ _ b hbmem hbk hsc)),
        rfl, rfl, rfl⟩
    · exact ⟨⟨b.subId, .muteToggled, .trackScope track.id, .bool mute,
          b.handler (.bool mute)⟩,
        List.mem_append.2 (Or.inr
          (deliver_receives _ _ _ _ b hbmem hbk hsc)),
        rfl, rfl, rfl⟩

/-- A device-scoped observer whose handler always fails, for the C8
witness. -/
def failingObserver : Subscription :=
  ⟨1, .muteToggled, .mixerScope 0, fun _ => false⟩

/-- A track-scoped observer registered after the failing one, for the C8
witness. -/
def laterObserver : Subscription :=
  ⟨2, .muteToggled, .trackScope 7, fun _ => true⟩

/-- Witness for C8 at a concrete input: the observer registered after
the failing one still receives the event, with its own handler result. -/
theorem mute_toggled_failure_isolated_witness :
    failingObserver.handler (.bool true) = false ∧
    failingObserver.kind = SigKind.muteToggled ∧
    laterObserver.kind = SigKind.muteToggled ∧
    ((∃ d ∈ gst_mixer_mute_toggled ⟨[failingObserver, laterObserver]⟩
        (GstMixer.mk 0) (GstMixerTrack.mk 7 2) true,
        d.subId = failingObserver.subId ∧ d.ok = false) ∧
    (∃ d ∈ gst_mixer_mute_toggled ⟨[failingObserver, laterObserver]⟩
        (GstMixer.mk 0) (GstMixerTrack.mk 7 2) true,
        d.subId = laterObserver.subId ∧ d.payload = .bool true ∧
        d.ok = laterObserver.handler (.bool true))) :=
  ⟨rfl, rfl, rfl,
    mute_toggled_failure_isolated [] [] [] failingObserver laterObserver
      (GstMixer.mk 0) (GstMixerTrack.mk 7 2) true rfl rfl (Or.inl rfl) rfl
      (Or.inr rfl)⟩

end GstMixerSpec
